import Mathlib

/-!
# cpp_diagram: code structure model and analysis engine

A shallow embedding of `src/analysis/code_analyzer.cpp` (class `CodeAnalyzer`) and of the class
graph construction of `src/visualizer/diagram_generator.cpp` (class `DiagramGenerator`),
together with the entity records they consume, followed by theorems about pattern detection,
metrics, the whole-codebase aggregation, the layered summary text and the class graph.

Conventions of the embedding:

* `std::string` is a Lean `String`; `std::vector<T>` is a `List T`.
* `std::string::find` returns `Option Nat`, `none` standing for `std::string::npos`.
* `int` counters are exact integers (`Int`).  A vector of this program holds far fewer than
  `2 ^ 31` elements, so the counters never leave the range of `int`.  The one quantity that can
  leave that range for inputs of ordinary size is the product of two counts in
  `calculateCohesion`; there the narrowing to a 32-bit `int` is written out.
* a `double` is the rational number it holds (`ℚ`).  The quotient of `calculateCoupling` is
  rounded to the nearest `double` (`divDouble`).  The sums of `analyzeCodebase` are sums of the
  values 0 and 1 and are exact; its two means are kept as the quotient of the sum by the number
  of types, which the code rounds in the last bit.
* an integer division traps on a zero divisor, so it is the fallible `udiv`, and
  `analyzeCodebase`, the one function that divides integers, returns an `Option`.
-/

namespace cpp_diagram

/-! ## Entity model (`parser/ast_types.h`) -/

/-- Modelled from the spec: the header `parser/ast_types.h` is not part of the sources; the
access levels are the three that `ASTVisitor::VisitCXXRecordDecl` assigns. -/
inductive AccessSpecifier where
  | Public
  | Protected
  | Private
  deriving DecidableEq, Repr

/-- Modelled from the spec: `FunctionInfo` of the absent header `parser/ast_types.h`, with the
members that `ASTVisitor::VisitFunctionDecl` fills in. -/
structure FunctionInfo where
  name : String
  qualifiedName : String
  returnType : String
  parameters : List String
  isTemplate : Bool
  templateParameters : List String
  calledFunctions : List String
  deriving DecidableEq, Repr

/-- Modelled from the spec: `MethodInfo` of the absent header `parser/ast_types.h`, with the
members that `ASTVisitor::VisitCXXRecordDecl` fills in for each method. -/
structure MethodInfo where
  name : String
  returnType : String
  parameters : List String
  isVirtual : Bool
  isPureVirtual : Bool
  isStatic : Bool
  isConst : Bool
  access : AccessSpecifier
  deriving DecidableEq, Repr

/-- Modelled from the spec: `FieldInfo` of the absent header `parser/ast_types.h`, with the
members that `ASTVisitor::VisitCXXRecordDecl` fills in for each field. -/
structure FieldInfo where
  name : String
  type : String
  access : AccessSpecifier
  isStatic : Bool
  deriving DecidableEq, Repr

/-- Modelled from the spec: `ClassInfo` of the absent header `parser/ast_types.h`, with the
members that `ASTVisitor::VisitCXXRecordDecl` fills in. -/
structure ClassInfo where
  name : String
  qualifiedName : String
  isAbstract : Bool
  isTemplate : Bool
  templateParameters : List String
  baseClasses : List String
  methods : List MethodInfo
  fields : List FieldInfo
  deriving DecidableEq, Repr

/-- The record `CodeMetrics` of `analysis/code_analyzer.h`. -/
structure CodeMetrics where
  cyclomaticComplexity : Int
  linesOfCode : Int
  numberOfMethods : Int
  numberOfAttributes : Int
  coupling : ℚ
  cohesion : ℚ
  deriving DecidableEq

/-- The record `CodeSummary` of `analysis/code_analyzer.h`. -/
structure CodeSummary where
  purpose : String
  keyAlgorithms : List String
  designPatterns : List String
  metrics : CodeMetrics
  deriving DecidableEq

/-! ## Library behaviour used by the analyzer -/

/-- Search for `needle` in the characters `hay`, which start at offset `pos` of the searched
string: the offset of the first occurrence, or `none` when there is none. -/
def findFrom (needle : List Char) : List Char → Nat → Option Nat
  | [], pos => if needle.isEmpty then some pos else none
  | c :: rest, pos =>
    if needle.isPrefixOf (c :: rest) then some pos else findFrom needle rest (pos + 1)

/-- The call `s.find(needle)` of `std::string`: offset of the first occurrence of `needle` in `s`,
`none` for `std::string::npos`. -/
def find (s needle : String) : Option Nat :=
  findFrom needle.data s.data 0

/-- Conversion of an unsigned value to a 32-bit `int`: reduction modulo `2 ^ 32` into the range
`[-2 ^ 31, 2 ^ 31)`. -/
def toInt32 (n : Nat) : Int :=
  if n % 2 ^ 32 < 2 ^ 31 then ((n % 2 ^ 32 : Nat) : Int) else ((n % 2 ^ 32 : Nat) : Int) - 2 ^ 32

/-- Unsigned integer division as the machine performs it: a zero divisor is a fault. -/
def udiv (a b : Nat) : Option Nat :=
  if b = 0 then none else some (a / b)

/-- The least number of doublings `k`, searched from `k` upwards through `fuel` candidates, that
brings the quotient `a / b` up to the significand range of a `double`:
`2 ^ 52 * b ≤ a * 2 ^ k`. -/
def significandShift (a b : Nat) : Nat → Nat → Nat
  | 0, k => k
  | fuel + 1, k => if 2 ^ 52 * b ≤ a * 2 ^ k then k else significandShift a b fuel (k + 1)

/-- Rounding of the quotient `num / den` to the nearest integer, a tie going to the even
neighbour. -/
def roundHalfEven (num den : Nat) : Nat :=
  let q := num / den
  let r := num % den
  if 2 * r < den then q else if den < 2 * r then q + 1 else if q % 2 = 0 then q else q + 1

/-- The `double` quotient of two non-negative integers that are exact as `double` values
(IEEE 754 binary64 division, round to nearest, ties to even): the quotient is scaled by
`2 ^ k` until its integer part has 53 bits, rounded to an integer and scaled back.  The search
for `k` always ends within its `b + 53` candidates, since `b < 2 ^ b`.  The exponent range of a
`double` is not modelled: the operands of this program are an `int` and a `size_t`, whose
quotient is far from it.  A zero divisor gives no number in C++ and 0 here. -/
def divDoubleNat (a b : Nat) : ℚ :=
  if a = 0 ∨ b = 0 then 0
  else
    let k := significandShift a b (b + 53) 0
    (roundHalfEven (a * 2 ^ k) b : ℚ) / 2 ^ k

/-- The `double` quotient `static_cast<double>(a) / b` of an `int` by a `size_t`. -/
def divDouble (a : Int) (b : Nat) : ℚ :=
  if a < 0 then -divDoubleNat a.natAbs b else divDoubleNat a.toNat b

/-- The text that `operator<<` writes for a sequence of strings, each preceded by `sep`. -/
def streamAll (sep : String) : List String → String
  | [] => ""
  | s :: rest => sep ++ s ++ streamAll sep rest

/-! ## `CodeAnalyzer` -/

/-- `CodeAnalyzer::calculateCyclomaticComplexity`: the body ignores its argument and returns the
base complexity.  It is declared on `FunctionInfo` and is applied to the methods of a class as
well, hence the argument type is left open. -/
def calculateCyclomaticComplexity {α : Type} (_functionInfo : α) : Int :=
  1

/-- The contribution of one other class to the coupling count of `classInfo`: the body of the
outer loop of `CodeAnalyzer::calculateCoupling`. -/
def couplingStep (classInfo : ClassInfo) (couplingCount : Int) (otherClass : ClassInfo) : Int :=
  if otherClass.qualifiedName != classInfo.qualifiedName then
    let afterBases :=
      if classInfo.baseClasses.contains otherClass.qualifiedName then couplingCount + 1
      else couplingCount
    classInfo.methods.foldl
      (fun count method =>
        let afterParams := method.parameters.foldl
          (fun k param => if (find param otherClass.name).isSome then k + 1 else k) count
        if (find method.returnType otherClass.name).isSome then afterParams + 1 else afterParams)
      afterBases
  else couplingCount

/-- `CodeAnalyzer::calculateCoupling`: the count is converted to `double` and divided by the size
of the universe in `double` arithmetic.  For an empty `allClasses` the C++ quotient is
`0.0 / 0`, which is not a number; the model is meaningful for a non-empty universe only. -/
def calculateCoupling (classInfo : ClassInfo) (allClasses : List ClassInfo) : ℚ :=
  let couplingCount : Int := allClasses.foldl (couplingStep classInfo) 0
  divDouble couplingCount allClasses.length

/-- `CodeAnalyzer::calculateCohesion`.  The product of the two sizes is computed in `size_t`
and narrowed to the `int` variable `possibleInteractions`. -/
def calculateCohesion (classInfo : ClassInfo) : ℚ :=
  let totalInteractions : Int := 0
  let possibleInteractions : Int :=
    toInt32 ((classInfo.methods.length * classInfo.fields.length) % 2 ^ 64)
  if possibleInteractions = 0 then 1
  else (totalInteractions : ℚ) / (possibleInteractions : ℚ)

/-- `CodeAnalyzer::calculateMetrics(const ClassInfo&)`. -/
def calculateMetrics (classInfo : ClassInfo) : CodeMetrics :=
  { cyclomaticComplexity :=
      classInfo.methods.foldl (fun acc method => acc + calculateCyclomaticComplexity method) 0
    linesOfCode := (classInfo.methods.length : Int) * 10
    numberOfMethods := (classInfo.methods.length : Int)
    numberOfAttributes := (classInfo.fields.length : Int)
    coupling := calculateCoupling classInfo [classInfo]
    cohesion := calculateCohesion classInfo }

/-- `CodeAnalyzer::calculateMetrics(const FunctionInfo&)`. -/
def calculateMetricsFn (functionInfo : FunctionInfo) : CodeMetrics :=
  { cyclomaticComplexity := calculateCyclomaticComplexity functionInfo
    linesOfCode := 10
    numberOfMethods := 0
    numberOfAttributes := 0
    coupling := 0
    cohesion := 0 }

/-- The three flags `hasAttach`, `hasDetach`, `hasNotify` after the loop over the methods in
`CodeAnalyzer::identifyDesignPatterns`. -/
def observerFlags (methods : List MethodInfo) : Bool × Bool × Bool :=
  methods.foldl
    (fun flags method =>
      (if method.name == "attach" then true else flags.1,
       if method.name == "detach" then true else flags.2.1,
       if method.name == "notify" then true else flags.2.2))
    (false, false, false)

/-- `CodeAnalyzer::identifyDesignPatterns`. -/
def identifyDesignPatterns (classInfo : ClassInfo) : List String :=
  let patterns : List String := []
  let patterns :=
    if classInfo.methods.length == 1 &&
        (match classInfo.methods[0]? with
          | some method => method.isStatic && method.name == "getInstance"
          | none => false)
    then patterns ++ ["Singleton"] else patterns
  let patterns :=
    if (find classInfo.name "Factory").isSome then patterns ++ ["Factory"] else patterns
  let flags := observerFlags classInfo.methods
  if flags.1 && flags.2.1 && flags.2.2 then patterns ++ ["Observer"] else patterns

/-- `CodeAnalyzer::identifyAlgorithms`. -/
def identifyAlgorithms (functionInfo : FunctionInfo) : List String :=
  let algorithms : List String := []
  let algorithms :=
    if (find functionInfo.name "sort").isSome then algorithms ++ ["Sorting"] else algorithms
  let algorithms :=
    if (find functionInfo.name "search").isSome then algorithms ++ ["Searching"] else algorithms
  if (find functionInfo.name "traverse").isSome then algorithms ++ ["Tree/Graph Traversal"]
  else algorithms

/-- `CodeAnalyzer::analyzeClass`. -/
def analyzeClass (classInfo : ClassInfo) : CodeSummary :=
  let purpose := "The " ++ classInfo.name ++ " class "
  let purpose :=
    if classInfo.isAbstract then purpose ++ "is an abstract base class "
    else if classInfo.isTemplate then purpose ++ "is a template class "
    else purpose
  let purpose :=
    match classInfo.baseClasses with
    | [] => purpose
    | base :: others => purpose ++ "that inherits from " ++ base ++ streamAll ", " others ++ " "
  let purpose := purpose ++ "with " ++ toString classInfo.methods.length ++ " methods and "
    ++ toString classInfo.fields.length ++ " fields."
  { purpose := purpose
    keyAlgorithms := []
    designPatterns := identifyDesignPatterns classInfo
    metrics := calculateMetrics classInfo }

/-- `CodeAnalyzer::analyzeFunction`. -/
def analyzeFunction (functionInfo : FunctionInfo) : CodeSummary :=
  let purpose := "The " ++ functionInfo.name ++ " function "
  let purpose := if functionInfo.isTemplate then purpose ++ "is a template function " else purpose
  let purpose := purpose ++ "takes " ++ toString functionInfo.parameters.length ++ " parameters "
    ++ "and returns " ++ functionInfo.returnType ++ "."
  { purpose := purpose
    keyAlgorithms := identifyAlgorithms functionInfo
    designPatterns := []
    metrics := calculateMetricsFn functionInfo }

/-- The metrics with which `CodeAnalyzer::analyzeCodebase` starts its accumulation. -/
def zeroMetrics : CodeMetrics :=
  { cyclomaticComplexity := 0
    linesOfCode := 0
    numberOfMethods := 0
    numberOfAttributes := 0
    coupling := 0
    cohesion := 0 }

/-- One round of the accumulation loop of `CodeAnalyzer::analyzeCodebase`. -/
def accumulate (acc : CodeMetrics) (classInfo : ClassInfo) : CodeMetrics :=
  let classMetrics := calculateMetrics classInfo
  { cyclomaticComplexity := acc.cyclomaticComplexity + classMetrics.cyclomaticComplexity
    linesOfCode := acc.linesOfCode + classMetrics.linesOfCode
    numberOfMethods := acc.numberOfMethods + classMetrics.numberOfMethods
    numberOfAttributes := acc.numberOfAttributes + classMetrics.numberOfAttributes
    coupling := acc.coupling + classMetrics.coupling
    cohesion := acc.cohesion + classMetrics.cohesion }

/-- `CodeAnalyzer::analyzeCodebase`.  The two integer divisions of the purpose sentence are
unsigned (`int / size_t`) and fault on a zero divisor; the result is `none` exactly when one of
them would. -/
def analyzeCodebase (classes : List ClassInfo) (functions : List FunctionInfo) :
    Option CodeSummary :=
  let summed := classes.foldl accumulate zeroMetrics
  let metrics :=
    if !classes.isEmpty then
      { summed with
        coupling := summed.coupling / (classes.length : ℚ)
        cohesion := summed.cohesion / (classes.length : ℚ) }
    else summed
  let purpose := "The codebase contains " ++ toString classes.length ++ " classes and "
    ++ toString functions.length ++ " functions. "
  let finished : Option String :=
    if !classes.isEmpty then
      (udiv metrics.numberOfMethods.toNat classes.length).bind fun avgMethods =>
      (udiv metrics.numberOfAttributes.toNat classes.length).bind fun avgAttributes =>
      some (purpose ++ "The average class has " ++ toString avgMethods
        ++ " methods and " ++ toString avgAttributes ++ " attributes.")
    else some purpose
  finished.map fun text =>
    { purpose := text
      keyAlgorithms := []
      designPatterns := []
      metrics := metrics }

/-- `CodeAnalyzer::generateSummary`.  The text that `std::fixed << std::setprecision(2)` writes
for a `double` depends on the binary representation of the value, so the formatter of the two
floating values is the parameter `fixed2`; everything else is the stream output of the
source. -/
def generateSummary (fixed2 : ℚ → String) (summary : CodeSummary) (detailLevel : Int) : String :=
  let ss := "Purpose:\n" ++ summary.purpose ++ "\n\n"
  let ss :=
    if detailLevel ≥ 2 then
      ss ++ "Metrics:\n"
        ++ "  Cyclomatic Complexity: " ++ toString summary.metrics.cyclomaticComplexity ++ "\n"
        ++ "  Lines of Code: " ++ toString summary.metrics.linesOfCode ++ "\n"
        ++ "  Number of Methods: " ++ toString summary.metrics.numberOfMethods ++ "\n"
        ++ "  Number of Attributes: " ++ toString summary.metrics.numberOfAttributes ++ "\n"
        ++ "  Coupling: " ++ fixed2 summary.metrics.coupling ++ "\n"
        ++ "  Cohesion: " ++ fixed2 summary.metrics.cohesion ++ "\n\n"
    else ss
  if detailLevel ≥ 3 then
    let ss :=
      if !summary.designPatterns.isEmpty then
        summary.designPatterns.foldl (fun out pattern => out ++ "  - " ++ pattern ++ "\n")
          (ss ++ "Design Patterns:\n") ++ "\n"
      else ss
    if !summary.keyAlgorithms.isEmpty then
      summary.keyAlgorithms.foldl (fun out algorithm => out ++ "  - " ++ algorithm ++ "\n")
        (ss ++ "Key Algorithms:\n") ++ "\n"
    else ss
  else ss

/-! ## Relationships and the Graphviz library

`DiagramGenerator` builds its graphs through the C library cgraph.  The library is modelled as
an in-memory graph whose calls always succeed (they fail only when memory runs out); the
null checks of the source are kept.  A node pointer is the name of the node, since cgraph keeps
one node per name, and an edge pointer is the position of the edge in the edge list. -/

/-- Modelled from the spec: `RelationshipType` of the absent header `parser/ast_types.h`, with
the five kinds that `DiagramGenerator::createRelationshipEdge` distinguishes. -/
inductive RelationshipType where
  | Inheritance
  | Composition
  | Aggregation
  | Association
  | Dependency
  deriving DecidableEq, Repr

/-- Modelled from the spec: `RelationshipInfo` of the absent header `parser/ast_types.h`, with
the members that the parser and the diagram generator use. -/
structure RelationshipInfo where
  fromClass : String
  toClass : String
  type : RelationshipType
  isBidirectional : Bool
  label : String
  deriving DecidableEq, Repr

/-- A node of a cgraph graph: its name and its attributes. -/
structure Agnode where
  name : String
  attributes : List (String × String)
  deriving DecidableEq, Repr

/-- An edge of a cgraph graph: the names of its two end nodes and its attributes. -/
structure Agedge where
  tail : String
  head : String
  attributes : List (String × String)
  deriving DecidableEq, Repr

/-- A cgraph graph. -/
structure Agraph where
  name : String
  nodes : List Agnode
  edges : List Agedge
  deriving DecidableEq, Repr

/-- The library call `agopen(name, Agdirected, nullptr)`: a new empty graph. -/
def agopen (name : String) : Option Agraph :=
  some { name := name, nodes := [], edges := [] }

/-- The library call `agnode(graph, name, 1)`: the node of that name, created when the graph
has none. -/
def agnode (graph : Agraph) (name : String) : Agraph × Option String :=
  if graph.nodes.any (fun node => node.name == name) then (graph, some name)
  else ({ graph with nodes := graph.nodes ++ [{ name := name, attributes := [] }] }, some name)

/-- The library call `agedge(graph, tail, head, nullptr, 1)` on a directed, non-strict graph:
a new edge each time. -/
def agedge (graph : Agraph) (tail head : String) : Agraph × Option Nat :=
  ({ graph with edges := graph.edges ++ [{ tail := tail, head := head, attributes := [] }] },
    some graph.edges.length)

/-- Setting one attribute in an attribute list. -/
def setAttribute (attributes : List (String × String)) (key value : String) :
    List (String × String) :=
  (attributes.filter fun entry => entry.1 != key) ++ [(key, value)]

/-- The library call `agsafeset(node, key, value, "")` on a node. -/
def agsafesetNode (graph : Agraph) (node key value : String) : Agraph :=
  { graph with
    nodes := graph.nodes.map fun n =>
      if n.name == node then { n with attributes := setAttribute n.attributes key value } else n }

/-- The library call `agsafeset(edge, key, value, "")` on an edge. -/
def agsafesetEdge (graph : Agraph) (edge : Nat) (key value : String) : Agraph :=
  { graph with
    edges := graph.edges.modify
      (fun e => { e with attributes := setAttribute e.attributes key value }) edge }

/-- The assignment `nodes[key] = node` on a `std::map<std::string, Agnode_t*>`, the map being
kept as an association list with one entry per key. -/
def mapAssign (nodes : List (String × String)) (key node : String) : List (String × String) :=
  (key, node) :: nodes.filter fun entry => entry.1 != key

/-- The symbol that the class label shows for an access level. -/
def accessSymbol : AccessSpecifier → String
  | AccessSpecifier.Public => "+"
  | AccessSpecifier.Protected => "#"
  | AccessSpecifier.Private => "-"

/-- The loop that appends `items` to `label`, writing ", " before every item but the first. -/
def appendCommaSeparated (label : String) (items : List String) : String :=
  items.enum.foldl
    (fun label entry => (if entry.1 > 0 then label ++ ", " else label) ++ entry.2) label

/-- The record label that `DiagramGenerator::createClassNode` builds. -/
def classLabel (classInfo : ClassInfo) : String :=
  let label := "\x7b " ++ classInfo.name
  let label :=
    if classInfo.isTemplate then
      appendCommaSeparated (label ++ "\\<") classInfo.templateParameters ++ "\\>"
    else label
  let label := label ++ " | "
  let label := classInfo.fields.foldl
    (fun label field =>
      label ++ (accessSymbol field.access ++ field.name ++ " : " ++ field.type ++ "\\l"))
    label
  let label := classInfo.methods.foldl
    (fun label method =>
      let label := label ++ (accessSymbol method.access ++ method.name ++ "(")
      let label := appendCommaSeparated label method.parameters
      let label := label ++ (") : " ++ method.returnType)
      let label := if method.isVirtual then label ++ " (virtual)" else label
      let label := if method.isPureVirtual then label ++ " = 0" else label
      let label := if method.isStatic then label ++ " (static)" else label
      let label := if method.isConst then label ++ " const" else label
      label ++ "\\l")
    label
  label ++ "\x7d"

/-- `DiagramGenerator::createClassNode`. -/
def createClassNode (graph : Agraph) (classInfo : ClassInfo) : Agraph × Option String :=
  match agnode graph classInfo.qualifiedName with
  | (graph, none) => (graph, none)
  | (graph, some node) =>
    let graph := agsafesetNode graph node "shape" "record"
    let graph := agsafesetNode graph node "style" "filled"
    let graph := agsafesetNode graph node "fillcolor" "lightgray"
    let graph := agsafesetNode graph node "label" (classLabel classInfo)
    (graph, some node)

/-- `DiagramGenerator::createRelationshipEdge`. -/
def createRelationshipEdge (graph : Agraph) (tail head : String)
    (relationship : RelationshipInfo) : Agraph × Option Nat :=
  match agedge graph tail head with
  | (graph, none) => (graph, none)
  | (graph, some edge) =>
    let graph :=
      match relationship.type with
      | RelationshipType.Inheritance => agsafesetEdge graph edge "arrowhead" "empty"
      | RelationshipType.Composition => agsafesetEdge graph edge "arrowhead" "diamond"
      | RelationshipType.Aggregation => agsafesetEdge graph edge "arrowhead" "odiamond"
      | RelationshipType.Association => agsafesetEdge graph edge "arrowhead" "vee"
      | RelationshipType.Dependency =>
        agsafesetEdge (agsafesetEdge graph edge "arrowhead" "vee") edge "style" "dashed"
    let graph :=
      if !relationship.label.isEmpty then agsafesetEdge graph edge "label" relationship.label
      else graph
    (graph, some edge)

/-- One round of the first loop of `DiagramGenerator::createClassGraph`: the node of a class
is created and, when the node is not null, entered in the map under the qualifiedName. -/
def addClassNode (state : Agraph × List (String × String)) (classInfo : ClassInfo) :
    Agraph × List (String × String) :=
  match createClassNode state.1 classInfo with
  | (graph, some node) => (graph, mapAssign state.2 classInfo.qualifiedName node)
  | (graph, none) => (graph, state.2)

/-- One round of the second loop of `DiagramGenerator::createClassGraph`: the edge of a
relationship is created when both of its ends are found in the map. -/
def addRelationshipEdge (classNodes : List (String × String)) (graph : Agraph)
    (relationship : RelationshipInfo) : Agraph :=
  match classNodes.lookup relationship.fromClass, classNodes.lookup relationship.toClass with
  | some tail, some head => (createRelationshipEdge graph tail head relationship).1
  | _, _ => graph

/-- `DiagramGenerator::createClassGraph`; `none` is the null pointer. -/
def createClassGraph (classes : List ClassInfo) (relationships : List RelationshipInfo) :
    Option Agraph :=
  match agopen "ClassDiagram" with
  | none => none
  | some graph =>
    let state := classes.foldl addClassNode (graph, [])
    some (relationships.foldl (addRelationshipEdge state.2) state.1)

/-! ## The specification's wording of two computations

The next two definitions follow the words of the specification, not the source; the theorems
compare them with `calculateCoupling` and `generateSummary`. -/

/-- One bullet line per label, in list order. -/
def bulletLinesSpec : List String → String
  | [] => ""
  | label :: rest => "  - " ++ label ++ "\n" ++ bulletLinesSpec rest

/-- A label section as the specification words it: nothing for an empty label list, otherwise
the header line, one bullet line per label in list order, and a blank line. -/
def labelSectionSpec (header : String) (labels : List String) : String :=
  if labels = [] then "" else header ++ "\n" ++ bulletLinesSpec labels ++ "\n"

/-! ## Sample entities -/

/-- A function named "quickSort". -/
def quickSortFunction : FunctionInfo :=
  { name := "quickSort", qualifiedName := "quickSort", returnType := "void",
    parameters := ["std::vector<int> &"], isTemplate := false, templateParameters := [],
    calledFunctions := [] }

/-- A function named "quicksort", all in lower case. -/
def quicksortLower : FunctionInfo :=
  { quickSortFunction with name := "quicksort", qualifiedName := "quicksort" }

/-- A static accessor method named "getInstance". -/
def getInstanceMethod : MethodInfo :=
  { name := "getInstance", returnType := "Logger *", parameters := [], isVirtual := false,
    isPureVirtual := false, isStatic := true, isConst := false, access := AccessSpecifier.Public }

/-- A type whose only method is the static accessor "getInstance". -/
def logger : ClassInfo :=
  { name := "Logger", qualifiedName := "Logger", isAbstract := false, isTemplate := false,
    templateParameters := [], baseClasses := [], methods := [getInstanceMethod],
    fields := [] }

/-- The same type under a name that contains "Factory". -/
def loggerFactory : ClassInfo :=
  { logger with name := "LoggerFactory", qualifiedName := "LoggerFactory" }

/-- A public instance method returning `void` with the given name and one parameter. -/
def voidMethod (name param : String) : MethodInfo :=
  { name := name, returnType := "void", parameters := [param], isVirtual := false,
    isPureVirtual := false, isStatic := false, isConst := false, access := AccessSpecifier.Public }

def attachMethod : MethodInfo := voidMethod "attach" "Observer *"

def detachMethod : MethodInfo := voidMethod "detach" "Observer *"

def notifyMethod : MethodInfo := voidMethod "notify" "const std::string &"

/-- The class `Subject` of `test/example.cpp`. -/
def subject : ClassInfo :=
  { name := "Subject", qualifiedName := "Subject", isAbstract := false, isTemplate := false,
    templateParameters := [], baseClasses := [],
    methods := [attachMethod, detachMethod, notifyMethod],
    fields := [{ name := "observers", type := "std::vector<Observer *>",
                 access := AccessSpecifier.Private, isStatic := false }] }

/-- The static method `createCircle` of `ShapeFactory` in `test/example.cpp`. -/
def createCircleMethod : MethodInfo :=
  { name := "createCircle", returnType := "std::unique_ptr<Shape>", parameters := ["double"],
    isVirtual := false, isPureVirtual := false, isStatic := true, isConst := false,
    access := AccessSpecifier.Public }

/-- The class `ShapeFactory` of `test/example.cpp`. -/
def shapeFactory : ClassInfo :=
  { name := "ShapeFactory", qualifiedName := "ShapeFactory", isAbstract := false,
    isTemplate := false, templateParameters := [], baseClasses := [],
    methods := [createCircleMethod],
    fields := [] }

/-- A type `Builder` declared inside a namespace or class `WidgetFactory`. -/
def nestedBuilder : ClassInfo :=
  { name := "Builder", qualifiedName := "WidgetFactory::Builder", isAbstract := false,
    isTemplate := false, templateParameters := [], baseClasses := [], methods := [],
    fields := [] }

/-- A private, non-static field with the given name and type. -/
def privateField (name type : String) : FieldInfo :=
  { name := name, type := type, access := AccessSpecifier.Private, isStatic := false }

/-- The private constructor of `Logger` in `test/example.cpp`, as the parser records it. -/
def loggerConstructor : MethodInfo :=
  { name := "Logger", returnType := "void", parameters := [], isVirtual := false,
    isPureVirtual := false, isStatic := false, isConst := false,
    access := AccessSpecifier.Private }

/-- The class `Logger` of `test/example.cpp` (marked there as the Singleton pattern) with the
methods it declares: the private constructor, the static `getInstance` and `log`. -/
def exampleLogger : ClassInfo :=
  { name := "Logger", qualifiedName := "Logger", isAbstract := false, isTemplate := false,
    templateParameters := [], baseClasses := [],
    methods := [loggerConstructor, getInstanceMethod, voidMethod "log" "const std::string &"],
    fields := [] }

/-- A type with 65536 methods and 65536 fields. -/
def wideType : ClassInfo :=
  { name := "Wide", qualifiedName := "Wide", isAbstract := false, isTemplate := false,
    templateParameters := [], baseClasses := [],
    methods := List.replicate 65536 notifyMethod,
    fields := List.replicate 65536 (privateField "value" "int") }

/-- A function named "add". -/
def addFunction : FunctionInfo :=
  { name := "add", qualifiedName := "add", returnType := "int", parameters := ["int", "int"],
    isTemplate := false, templateParameters := [], calledFunctions := [] }

/-- A summary with one design pattern and one algorithm label. -/
def sampleSummary : CodeSummary :=
  { purpose := "The Subject class with 3 methods and 1 fields."
    keyAlgorithms := ["Sorting"]
    designPatterns := ["Observer"]
    metrics := calculateMetrics subject }

/-- A formatter for the floating values of the sample: the integer part with two zeros. -/
def sampleFixed2 (value : ℚ) : String :=
  toString value.floor ++ ".00"

/-- An inheritance relationship between two qualified names. -/
def inheritance (fromClass toClass : String) : RelationshipInfo :=
  { fromClass := fromClass, toClass := toClass, type := RelationshipType.Inheritance,
    isBidirectional := false, label := "" }

/-! ## Auxiliary facts -/

theorem findFrom_isSome_iff (needle hay : List Char) (pos : Nat) :
    (findFrom needle hay pos).isSome = true ↔ needle <:+: hay := by
  induction hay generalizing pos with
  | nil =>
    cases needle <;> simp [findFrom]
  | cons c rest ih =>
    rw [findFrom, List.infix_cons_iff]
    by_cases hp : needle.isPrefixOf (c :: rest) = true
    · simp only [hp, if_true, Option.isSome_some, true_iff]
      exact Or.inl (List.isPrefixOf_iff_prefix.1 hp)
    · have hnp : ¬ needle <+: c :: rest := fun h => hp (List.isPrefixOf_iff_prefix.2 h)
      simp only [hp, if_false, hnp, false_or]
      exact ih _

/-- The test `s.find(needle) != npos` succeeds exactly when `needle` occurs in `s` as a block of
consecutive characters. -/
theorem find_isSome_iff (s needle : String) :
    (find s needle).isSome = true ↔ needle.data <:+: s.data :=
  findFrom_isSome_iff needle.data s.data 0

theorem observerFlags_foldl (ms : List MethodInfo) (flags : Bool × Bool × Bool) :
    ms.foldl
      (fun flags method =>
        (if method.name == "attach" then true else flags.1,
         if method.name == "detach" then true else flags.2.1,
         if method.name == "notify" then true else flags.2.2)) flags
      = (flags.1 || ms.any (fun m => m.name == "attach"),
         flags.2.1 || ms.any (fun m => m.name == "detach"),
         flags.2.2 || ms.any (fun m => m.name == "notify")) := by
  induction ms generalizing flags with
  | nil => simp
  | cons m rest ih =>
    rw [List.foldl_cons, ih]
    obtain ⟨a, d, n⟩ := flags
    simp only [List.any_cons]
    generalize (m.name == "attach") = b1
    generalize (m.name == "detach") = b2
    generalize (m.name == "notify") = b3
    cases b1 <;> cases b2 <;> cases b3 <;> cases a <;> cases d <;> cases n <;> simp

/-- The flags computed by the loop are the three existence tests on the method names. -/
theorem observerFlags_eq (ms : List MethodInfo) :
    observerFlags ms
      = (ms.any (fun m => m.name == "attach"),
         ms.any (fun m => m.name == "detach"),
         ms.any (fun m => m.name == "notify")) := by
  unfold observerFlags
  rw [observerFlags_foldl]
  simp

theorem any_name_perm {ms ms' : List MethodInfo} (h : ms.Perm ms') (s : String) :
    ms.any (fun m => m.name == s) = ms'.any (fun m => m.name == s) := by
  rw [Bool.eq_iff_iff]
  simp only [List.any_eq_true]
  constructor
  · rintro ⟨m, hm, hs⟩
    exact ⟨m, h.mem_iff.1 hm, hs⟩
  · rintro ⟨m, hm, hs⟩
    exact ⟨m, h.mem_iff.2 hm, hs⟩

theorem observerFlags_perm {ms ms' : List MethodInfo} (h : ms.Perm ms') :
    observerFlags ms = observerFlags ms' := by
  rw [observerFlags_eq, observerFlags_eq, any_name_perm h, any_name_perm h, any_name_perm h]

/-- Membership of the Observer label, read off the definition. -/
theorem observer_mem_iff (c : ClassInfo) :
    "Observer" ∈ identifyDesignPatterns c ↔
      ((observerFlags c.methods).1 && (observerFlags c.methods).2.1
        && (observerFlags c.methods).2.2) = true := by
  unfold identifyDesignPatterns
  simp only []
  split_ifs <;> simp_all

/-- Membership of the Factory label, read off the definition. -/
theorem factory_mem_iff (c : ClassInfo) :
    "Factory" ∈ identifyDesignPatterns c ↔ (find c.name "Factory").isSome = true := by
  unfold identifyDesignPatterns
  simp only []
  split_ifs <;> simp_all

/-! ## The rounded quotient -/

/-- Against the universe that consists of the type alone the coupling count stays 0 and the
quotient is 0. -/
theorem calculateCoupling_singleton (classInfo : ClassInfo) :
    calculateCoupling classInfo [classInfo] = 0 := by
  simp [calculateCoupling, couplingStep, divDouble, divDoubleNat]

/-- Membership of the Singleton label, read off the definition. -/
theorem singleton_mem_iff (c : ClassInfo) :
    "Singleton" ∈ identifyDesignPatterns c ↔
      (c.methods.length == 1 &&
        (match c.methods[0]? with
          | some method => method.isStatic && method.name == "getInstance"
          | none => false)) = true := by
  unfold identifyDesignPatterns
  simp only []
  generalize (c.methods.length == 1 &&
    (match c.methods[0]? with
      | some method => method.isStatic && method.name == "getInstance"
      | none => false)) = shape
  cases shape <;> simp only [Bool.false_eq_true, if_true, if_false] <;> split_ifs <;> simp

/-! ## Algorithm labels of a function -/

/-- C1 (as stated, refuted): the function named "quickSort" does not get the label "Sorting";
the search for "sort" is case-sensitive and "quickSort" only contains "Sort", so
`analyzeFunction` returns no algorithm label at all. -/
theorem analyzeFunction_quickSort_no_label :
    quickSortFunction.name = "quickSort" ∧
      "Sorting" ∉ (analyzeFunction quickSortFunction).keyAlgorithms ∧
      (analyzeFunction quickSortFunction).keyAlgorithms = [] := by
  decide

/-- C1 (amended): for every function whose name is the lower-case "quicksort", all other
fields arbitrary, `analyzeFunction` returns a summary whose keyAlgorithms contains
"Sorting". -/
theorem analyzeFunction_quicksort_sorting (f : FunctionInfo) (h : f.name = "quicksort") :
    "Sorting" ∈ (analyzeFunction f).keyAlgorithms := by
  simp only [analyzeFunction, identifyAlgorithms, h]
  decide

/-- Witness for C1 (amended): the function named "quicksort" gets the label "Sorting". -/
theorem analyzeFunction_quicksort_sorting_witness :
    quicksortLower.name = "quicksort" ∧
      "Sorting" ∈ (analyzeFunction quicksortLower).keyAlgorithms :=
  ⟨rfl, analyzeFunction_quicksort_sorting quicksortLower rfl⟩

/-! ## Design patterns of a type -/

/-- C2 (as stated, refuted): the type `LoggerFactory` has exactly one method, static and named
"getInstance", and still gets two labels, "Singleton" and "Factory", from
`identifyDesignPatterns` and from `analyzeClass`. -/
theorem identifyDesignPatterns_singleton_not_alone :
    (∃ m, loggerFactory.methods = [m] ∧ m.isStatic = true ∧ m.name = "getInstance") ∧
      identifyDesignPatterns loggerFactory = ["Singleton", "Factory"] ∧
      (analyzeClass loggerFactory).designPatterns ≠ ["Singleton"] := by
  refine ⟨⟨_, rfl, rfl, rfl⟩, ?_, ?_⟩ <;> decide

/-- C2 (amended): for every type that has exactly one method, static and named "getInstance",
and whose simple name does not contain "Factory", the design patterns returned by
`identifyDesignPatterns` and by `analyzeClass` are exactly the single label "Singleton". -/
theorem identifyDesignPatterns_singleton_only (c : ClassInfo) (m : MethodInfo)
    (hm : c.methods = [m]) (hstatic : m.isStatic = true) (hname : m.name = "getInstance")
    (hfactory : ¬ "Factory".data <:+: c.name.data) :
    identifyDesignPatterns c = ["Singleton"] ∧
      (analyzeClass c).designPatterns = ["Singleton"] := by
  have hfind : (find c.name "Factory").isSome = false := by
    rw [Bool.eq_false_iff]
    exact fun h => hfactory ((find_isSome_iff _ _).1 h)
  have hflags : observerFlags c.methods = (false, false, false) := by
    rw [observerFlags_eq, hm]
    simp only [List.any_cons, List.any_nil, hname]
    decide
  have key : identifyDesignPatterns c = ["Singleton"] := by
    unfold identifyDesignPatterns
    rw [hm] at hflags
    simp [hfind, hflags, hm, hstatic, hname]
  exact ⟨key, key⟩

/-- Witness for C2 (amended): the type `Logger` with the single static method "getInstance"
is labelled "Singleton" only. -/
theorem identifyDesignPatterns_singleton_only_witness :
    logger.methods = [getInstanceMethod] ∧ ¬ "Factory".data <:+: logger.name.data ∧
      identifyDesignPatterns logger = ["Singleton"] ∧
      (analyzeClass logger).designPatterns = ["Singleton"] :=
  ⟨rfl, by decide,
    identifyDesignPatterns_singleton_only logger getInstanceMethod rfl rfl rfl (by decide)⟩

/-- C3: two types that agree in everything except that the method list of the second is a
permutation of the method list of the first get the same pattern labels. -/
theorem identifyDesignPatterns_perm (c : ClassInfo) (ms : List MethodInfo)
    (h : c.methods.Perm ms) :
    identifyDesignPatterns { c with methods := ms } = identifyDesignPatterns c := by
  have hflags : observerFlags ms = observerFlags c.methods := (observerFlags_perm h).symm
  have hlen : ms.length = c.methods.length := h.length_eq.symm
  have hhead : c.methods.length = 1 → ms = c.methods := by
    intro h1
    obtain ⟨m, hm⟩ := List.length_eq_one.1 h1
    rw [hm] at h ⊢
    exact List.perm_singleton.1 h.symm
  unfold identifyDesignPatterns
  simp only [hflags, hlen]
  by_cases h1 : c.methods.length = 1
  · simp only [hhead h1]
  · simp [h1]

/-- Witness for C3: `Subject` with its three methods rotated keeps its labels. -/
theorem identifyDesignPatterns_perm_witness :
    subject.methods.Perm [notifyMethod, attachMethod, detachMethod] ∧
      identifyDesignPatterns { subject with methods := [notifyMethod, attachMethod, detachMethod] }
        = identifyDesignPatterns subject :=
  ⟨by decide, identifyDesignPatterns_perm subject _ (by decide)⟩

/-! ## Metrics -/

theorem foldl_complexity (ms : List MethodInfo) (acc : Int) :
    ms.foldl (fun acc method => acc + calculateCyclomaticComplexity method) acc
      = acc + (ms.map fun m => calculateCyclomaticComplexity m).sum := by
  induction ms generalizing acc with
  | nil => simp
  | cons m rest ih =>
    rw [List.foldl_cons, ih]
    simp [add_assoc]

theorem sum_complexity (ms : List MethodInfo) :
    (ms.map fun m => calculateCyclomaticComplexity m).sum = (ms.length : Int) := by
  induction ms with
  | nil => simp
  | cons m rest ih =>
    simp [ih, calculateCyclomaticComplexity]
    ring

/-- C5: for an empty list of types and any list of functions `analyzeCodebase` returns a
summary (no division is executed), all six metrics are 0, and the purpose sentence reports
0 classes and the number of functions and stops there, without a per-class average. -/
theorem analyzeCodebase_no_classes (functions : List FunctionInfo) :
    analyzeCodebase [] functions = some
      { purpose :=
          "The codebase contains 0 classes and " ++ toString functions.length ++ " functions. "
        keyAlgorithms := []
        designPatterns := []
        metrics :=
          { cyclomaticComplexity := 0, linesOfCode := 0, numberOfMethods := 0,
            numberOfAttributes := 0, coupling := 0, cohesion := 0 } } ∧
    (analyzeCodebase [] []).map (fun s => s.purpose)
      = some "The codebase contains 0 classes and 0 functions. " := by
  constructor
  · rfl
  · decide

/-- C6: for every type whose method list is empty or whose field list is empty,
`calculateCohesion` returns exactly 1, and so does the cohesion stored by
`calculateMetrics`. -/
theorem calculateCohesion_empty (c : ClassInfo) (h : c.methods = [] ∨ c.fields = []) :
    calculateCohesion c = 1 ∧ (calculateMetrics c).cohesion = 1 := by
  have key : calculateCohesion c = 1 := by
    unfold calculateCohesion
    rcases h with h | h <;> simp [h, toInt32]
  exact ⟨key, key⟩

/-- Witness for C6: `Logger` has no field and its cohesion is 1. -/
theorem calculateCohesion_empty_witness :
    (logger.methods = [] ∨ logger.fields = []) ∧
      calculateCohesion logger = 1 ∧ (calculateMetrics logger).cohesion = 1 :=
  ⟨Or.inr rfl, calculateCohesion_empty logger (Or.inr rfl)⟩

/-- C7: for every type the cyclomaticComplexity of `calculateMetrics` is the sum over the
methods of the per-method complexity, each per-method complexity is at least 1, and therefore
the total is at least the number of methods (and at least the reported numberOfMethods). -/
theorem calculateMetrics_complexity_ge_methods (c : ClassInfo) :
    (calculateMetrics c).cyclomaticComplexity
        = (c.methods.map fun m => calculateCyclomaticComplexity m).sum ∧
      (∀ m : MethodInfo, 1 ≤ calculateCyclomaticComplexity m) ∧
      (c.methods.length : Int) ≤ (calculateMetrics c).cyclomaticComplexity ∧
      (calculateMetrics c).numberOfMethods ≤ (calculateMetrics c).cyclomaticComplexity := by
  have hsum : (calculateMetrics c).cyclomaticComplexity
      = (c.methods.map fun m => calculateCyclomaticComplexity m).sum := by
    simp only [calculateMetrics, foldl_complexity, zero_add]
  refine ⟨hsum, fun m => le_refl _, ?_, ?_⟩
  · rw [hsum, sum_complexity]
  · rw [hsum, sum_complexity]
    exact le_refl _

/-! ## Observer and Factory signatures -/

/-- C8: for every type, `identifyDesignPatterns` includes "Observer" if and only if the method
list has a method named exactly "attach", one named exactly "detach" and one named exactly
"notify", wherever they stand and whatever other methods there are. -/
theorem identifyDesignPatterns_observer_iff (c : ClassInfo) :
    "Observer" ∈ identifyDesignPatterns c ↔
      (∃ m ∈ c.methods, m.name = "attach") ∧ (∃ m ∈ c.methods, m.name = "detach") ∧
        (∃ m ∈ c.methods, m.name = "notify") := by
  rw [observer_mem_iff, observerFlags_eq]
  simp [and_assoc]

/-- C9: for every type whose name contains "Factory", which has neither the Singleton shape
(exactly one method, static, named "getInstance") nor the Observer shape (methods named
"attach", "detach" and "notify"), `identifyDesignPatterns` returns exactly ["Factory"]. -/
theorem identifyDesignPatterns_factory_only (c : ClassInfo)
    (hname : "Factory".data <:+: c.name.data)
    (hsingleton : ¬ ∃ m, c.methods = [m] ∧ m.isStatic = true ∧ m.name = "getInstance")
    (hobserver : ¬ ((∃ m ∈ c.methods, m.name = "attach") ∧ (∃ m ∈ c.methods, m.name = "detach") ∧
      (∃ m ∈ c.methods, m.name = "notify"))) :
    identifyDesignPatterns c = ["Factory"] := by
  have hfind : (find c.name "Factory").isSome = true := (find_isSome_iff _ _).2 hname
  have hflags : ((observerFlags c.methods).1 && (observerFlags c.methods).2.1
      && (observerFlags c.methods).2.2) = false := by
    rw [Bool.eq_false_iff, observerFlags_eq]
    intro h
    apply hobserver
    simpa [and_assoc] using h
  have hsing : (c.methods.length == 1 &&
      (match c.methods[0]? with
        | some method => method.isStatic && method.name == "getInstance"
        | none => false)) = false := by
    rw [Bool.eq_false_iff]
    intro h
    apply hsingleton
    rw [Bool.and_eq_true, beq_iff_eq] at h
    obtain ⟨m, hm⟩ := List.length_eq_one.1 h.1
    refine ⟨m, hm, ?_⟩
    have h2 := h.2
    rw [hm] at h2
    simpa using h2
  unfold identifyDesignPatterns
  simp only [hfind, hflags, hsing]
  simp

/-- Witness for C9: `ShapeFactory` of `test/example.cpp` is labelled "Factory" only. -/
theorem identifyDesignPatterns_factory_only_witness :
    "Factory".data <:+: shapeFactory.name.data ∧
      identifyDesignPatterns shapeFactory = ["Factory"] :=
  ⟨by decide,
    identifyDesignPatterns_factory_only shapeFactory (by decide)
      (fun ⟨m, hm, _, hn⟩ => by
        have hcreate : createCircleMethod = m := List.head_eq_of_cons_eq hm
        rw [← hcreate] at hn
        exact absurd hn (by decide))
      (by decide)⟩

/-- C10 (as stated, refuted): the type `Builder` declared inside `WidgetFactory` has a
qualifiedName that contains "Factory", and `identifyDesignPatterns` does not label it
"Factory". -/
theorem identifyDesignPatterns_ignores_qualifiedName :
    ("Factory".data <:+: nestedBuilder.qualifiedName.data ∨
        "Factory".data <:+: nestedBuilder.name.data) ∧
      "Factory" ∉ identifyDesignPatterns nestedBuilder := by
  decide

/-- C10 (amended): for every type, `identifyDesignPatterns` includes "Factory" if and only if
the simple name contains the case-sensitive substring "Factory"; the qualifiedName is not
consulted, so replacing it leaves the labels unchanged. -/
theorem identifyDesignPatterns_factory_iff (c : ClassInfo) :
    ("Factory" ∈ identifyDesignPatterns c ↔ "Factory".data <:+: c.name.data) ∧
      ∀ q : String, identifyDesignPatterns { c with qualifiedName := q }
        = identifyDesignPatterns c := by
  refine ⟨?_, fun q => rfl⟩
  rw [factory_mem_iff, find_isSome_iff]

/-! ## Coupling -/

/-- C12: the coupling of a type against the universe that consists of the type alone is 0, and
so is the coupling stored by `calculateMetrics`, whatever the type mentions. -/
theorem calculateCoupling_self (classInfo : ClassInfo) :
    calculateCoupling classInfo [classInfo] = 0 ∧ (calculateMetrics classInfo).coupling = 0 := by
  have key : calculateCoupling classInfo [classInfo] = 0 :=
    calculateCoupling_singleton classInfo
  exact ⟨key, key⟩

/-! ## The layered summary text -/

theorem foldl_bullets (labels : List String) (out : String) :
    labels.foldl (fun out label => out ++ "  - " ++ label ++ "\n") out
      = out ++ bulletLinesSpec labels := by
  induction labels generalizing out with
  | nil => simp [bulletLinesSpec]
  | cons label rest ih =>
    rw [List.foldl_cons, ih]
    simp only [bulletLinesSpec, String.append_assoc]

theorem streamed_section (out header : String) (labels : List String) :
    (if !labels.isEmpty then
        labels.foldl (fun out label => out ++ "  - " ++ label ++ "\n") (out ++ (header ++ "\n"))
          ++ "\n"
      else out)
      = out ++ labelSectionSpec header labels := by
  cases labels with
  | nil => simp [labelSectionSpec]
  | cons label rest =>
    have hne : (!(label :: rest).isEmpty) = true := rfl
    rw [if_pos hne, foldl_bullets]
    simp [labelSectionSpec, String.append_assoc]

theorem labelSectionSpec_eq_empty_iff (header : String) (labels : List String) :
    labelSectionSpec header labels = "" ↔ labels = [] := by
  constructor
  · intro h
    by_contra hne
    have hlen := congrArg String.length h
    simp only [labelSectionSpec, hne, if_false, String.length_append] at hlen
    have h1 : ("\n" : String).length = 1 := by decide
    have h0 : ("" : String).length = 0 := by decide
    omega
  · intro h
    simp [labelSectionSpec, h]

theorem generateSummary_low (fixed2 : ℚ → String) (summary : CodeSummary) (detailLevel : Int)
    (h : detailLevel ≤ 1) :
    generateSummary fixed2 summary detailLevel = "Purpose:\n" ++ summary.purpose ++ "\n\n" := by
  have h2 : ¬ detailLevel ≥ 2 := by omega
  have h3 : ¬ detailLevel ≥ 3 := by omega
  simp only [generateSummary, h2, h3, if_false]

theorem generateSummary_two (fixed2 : ℚ → String) (summary : CodeSummary) :
    ∃ block, generateSummary fixed2 summary 2
      = "Purpose:\n" ++ summary.purpose ++ "\n\n" ++ block := by
  have h2 : (2 : Int) ≥ 2 := le_refl _
  have h3 : ¬ (2 : Int) ≥ 3 := by decide
  simp only [generateSummary, h2, h3, if_true, if_false, String.append_assoc]
  exact ⟨_, rfl⟩

theorem generateSummary_high (fixed2 : ℚ → String) (summary : CodeSummary) (detailLevel : Int)
    (h : 3 ≤ detailLevel) :
    generateSummary fixed2 summary detailLevel
      = generateSummary fixed2 summary 2
        ++ labelSectionSpec "Design Patterns:" summary.designPatterns
        ++ labelSectionSpec "Key Algorithms:" summary.keyAlgorithms := by
  have h2 : detailLevel ≥ 2 := by omega
  have h3 : detailLevel ≥ 3 := h
  have k2 : (2 : Int) ≥ 2 := le_refl _
  have k3 : ¬ (2 : Int) ≥ 3 := by decide
  have hd : ("Design Patterns:\n" : String) = "Design Patterns:" ++ "\n" := by decide
  have hk : ("Key Algorithms:\n" : String) = "Key Algorithms:" ++ "\n" := by decide
  simp only [generateSummary, h2, h3, k2, k3, if_true, if_false]
  rw [hd, hk, streamed_section, streamed_section]

/-! ## The class graph -/

theorem lookup_filter_ne (nodes : List (String × String)) (key k : String) (h : k ≠ key) :
    (nodes.filter fun entry => entry.1 != key).lookup k = nodes.lookup k := by
  induction nodes with
  | nil => rfl
  | cons entry rest ih =>
    obtain ⟨a, b⟩ := entry
    by_cases ha : a = key
    · subst ha
      have hk : (k == a) = false := by simpa using h
      simp [List.filter_cons, List.lookup_cons, hk, ih]
    · have hne : (a != key) = true := by simpa using ha
      simp only [List.filter_cons, hne, if_true, List.lookup_cons, ih]

theorem lookup_mapAssign (nodes : List (String × String)) (key node k : String) :
    (mapAssign nodes key node).lookup k = if k = key then some node else nodes.lookup k := by
  unfold mapAssign
  by_cases h : k = key
  · subst h
    simp
  · have hk : (k == key) = false := by simpa using h
    simp only [List.lookup_cons, hk, h, if_false, lookup_filter_ne nodes key k h]

theorem createClassNode_eq (graph : Agraph) (classInfo : ClassInfo) :
    (createClassNode graph classInfo).2 = some classInfo.qualifiedName ∧
      (createClassNode graph classInfo).1.edges = graph.edges := by
  unfold createClassNode agnode
  split_ifs <;> simp [agsafesetNode]

theorem addClassNode_eq (state : Agraph × List (String × String)) (classInfo : ClassInfo) :
    (addClassNode state classInfo).1.edges = state.1.edges ∧
      (addClassNode state classInfo).2
        = mapAssign state.2 classInfo.qualifiedName classInfo.qualifiedName := by
  have h := createClassNode_eq state.1 classInfo
  unfold addClassNode
  rcases hc : createClassNode state.1 classInfo with ⟨graph, node⟩
  rw [hc] at h
  obtain ⟨hnode, hedges⟩ := h
  simp only at hnode hedges
  subst hnode
  exact ⟨hedges, rfl⟩

/-- After the first loop the map holds exactly the qualified names of the classes, each bound
to the node of that name, and no edge has been created. -/
theorem foldl_addClassNode (classes : List ClassInfo) (state : Agraph × List (String × String)) :
    (classes.foldl addClassNode state).1.edges = state.1.edges ∧
      ∀ k, (classes.foldl addClassNode state).2.lookup k
        = if k ∈ classes.map (fun c => c.qualifiedName) then some k else state.2.lookup k := by
  induction classes generalizing state with
  | nil => simp
  | cons c rest ih =>
    rw [List.foldl_cons]
    obtain ⟨hedges, hlookup⟩ := ih (addClassNode state c)
    obtain ⟨h1, h2⟩ := addClassNode_eq state c
    refine ⟨hedges.trans h1, fun k => ?_⟩
    rw [hlookup, h2, lookup_mapAssign]
    by_cases hk : k = c.qualifiedName
    · subst hk
      simp
    · by_cases hr : k ∈ rest.map (fun c => c.qualifiedName)
      · simp [hr]
      · simp [hk, hr]

theorem agsafesetEdge_ends (graph : Agraph) (edge : Nat) (key value : String) :
    (agsafesetEdge graph edge key value).edges.map (fun e => (e.tail, e.head))
      = graph.edges.map (fun e => (e.tail, e.head)) := by
  unfold agsafesetEdge
  simp only
  generalize graph.edges = edges
  induction edges generalizing edge with
  | nil => simp
  | cons e rest ih =>
    cases edge with
    | zero => simp
    | succ n => simp [ih]

theorem createRelationshipEdge_ends (graph : Agraph) (tail head : String)
    (relationship : RelationshipInfo) :
    (createRelationshipEdge graph tail head relationship).1.edges.map (fun e => (e.tail, e.head))
      = graph.edges.map (fun e => (e.tail, e.head)) ++ [(tail, head)] := by
  unfold createRelationshipEdge agedge
  simp only
  split_ifs <;> cases relationship.type <;> simp [agsafesetEdge_ends]

theorem foldl_addRelationshipEdge (classNodes : List (String × String))
    (known : String → Prop) [DecidablePred known]
    (hnodes : ∀ k, classNodes.lookup k = if known k then some k else none)
    (relationships : List RelationshipInfo) (graph : Agraph) :
    (relationships.foldl (addRelationshipEdge classNodes) graph).edges.map
        (fun e => (e.tail, e.head))
      = graph.edges.map (fun e => (e.tail, e.head))
        ++ (relationships.filter fun r => decide (known r.fromClass ∧ known r.toClass)).map
            (fun r => (r.fromClass, r.toClass)) := by
  induction relationships generalizing graph with
  | nil => simp
  | cons r rest ih =>
    rw [List.foldl_cons, ih]
    unfold addRelationshipEdge
    rw [hnodes r.fromClass, hnodes r.toClass]
    by_cases hf : known r.fromClass <;> by_cases ht : known r.toClass <;>
      simp [hf, ht, List.filter_cons, createRelationshipEdge_ends]

/-- C18: the class graph is always built, and its edges are, in order, one edge per
relationship whose fromClass and toClass are both qualified names of supplied types; a
relationship with a missing end contributes no edge. -/
theorem createClassGraph_drops_dangling (classes : List ClassInfo)
    (relationships : List RelationshipInfo) :
    ∃ graph, createClassGraph classes relationships = some graph ∧
      graph.edges.map (fun e => (e.tail, e.head))
        = (relationships.filter fun r =>
            decide (r.fromClass ∈ classes.map (fun c => c.qualifiedName) ∧
              r.toClass ∈ classes.map (fun c => c.qualifiedName))).map
          (fun r => (r.fromClass, r.toClass)) := by
  refine ⟨_, rfl, ?_⟩
  obtain ⟨hedges, hlookup⟩ :=
    foldl_addClassNode classes ({ name := "ClassDiagram", nodes := [], edges := [] }, [])
  rw [foldl_addRelationshipEdge _ (fun k => k ∈ classes.map (fun c => c.qualifiedName))
    (fun k => by rw [hlookup]; rfl), hedges]
  simp

/-! ## Detail levels -/

/-- C13: for every summary and every detail level of at most 1, zero and negative levels
included, `generateSummary` returns exactly the purpose paragraph: "Purpose:", the purpose on
the next line and a blank line, with no metrics block and no label list. -/
theorem generateSummary_purpose_only (fixed2 : ℚ → String) (summary : CodeSummary)
    (detailLevel : Int) (h : detailLevel ≤ 1) :
    generateSummary fixed2 summary detailLevel = "Purpose:\n" ++ summary.purpose ++ "\n\n" :=
  generateSummary_low fixed2 summary detailLevel h

/-- Witness for C13: at level -3 the sample summary is rendered as its purpose paragraph. -/
theorem generateSummary_purpose_only_witness :
    (-3 : Int) ≤ 1 ∧
      generateSummary sampleFixed2 sampleSummary (-3)
        = "Purpose:\nThe Subject class with 3 methods and 1 fields.\n\n" :=
  ⟨by decide, generateSummary_purpose_only sampleFixed2 sampleSummary (-3) (by decide)⟩

/-- C14: detail levels are cumulative; for levels d1 ≤ d2 the text of level d1 is a prefix of
the text of level d2, which only appends to it. -/
theorem generateSummary_cumulative (fixed2 : ℚ → String) (summary : CodeSummary)
    (d1 d2 : Int) (h : d1 ≤ d2) :
    ∃ rest, generateSummary fixed2 summary d2 = generateSummary fixed2 summary d1 ++ rest := by
  obtain ⟨block, hblock⟩ := generateSummary_two fixed2 summary
  by_cases h1 : d1 ≤ 1
  · rw [generateSummary_low fixed2 summary d1 h1]
    by_cases h2 : d2 ≤ 1
    · exact ⟨"", by rw [generateSummary_low fixed2 summary d2 h2, String.append_empty]⟩
    · by_cases h3 : d2 = 2
      · rw [h3]
        exact ⟨block, hblock⟩
      · have h4 : 3 ≤ d2 := by omega
        rw [generateSummary_high fixed2 summary d2 h4, hblock]
        exact ⟨_, by rw [String.append_assoc, String.append_assoc]⟩
  · by_cases h2 : d1 = 2
    · by_cases h3 : d2 = 2
      · exact ⟨"", by rw [h2, h3, String.append_empty]⟩
      · have h4 : 3 ≤ d2 := by omega
        rw [generateSummary_high fixed2 summary d2 h4, h2]
        exact ⟨_, by rw [String.append_assoc]⟩
    · have h3 : 3 ≤ d1 := by omega
      have h4 : 3 ≤ d2 := by omega
      exact ⟨"", by rw [generateSummary_high fixed2 summary d2 h4,
        generateSummary_high fixed2 summary d1 h3, String.append_empty]⟩

/-- Witness for C14: the text of level 1 of the sample summary is a prefix of the text of
level 3. -/
theorem generateSummary_cumulative_witness :
    (1 : Int) ≤ 3 ∧
      ∃ rest, generateSummary sampleFixed2 sampleSummary 3
        = generateSummary sampleFixed2 sampleSummary 1 ++ rest :=
  ⟨by decide, generateSummary_cumulative sampleFixed2 sampleSummary 1 3 (by decide)⟩

/-- C15: for every summary and every detail level of at least 3 the text is the text of
level 2 followed by the design-patterns section and then the key-algorithms section, where a
section is empty exactly when its label list is empty and otherwise is its header line, one
bullet line per label in list order, and a blank line. -/
theorem generateSummary_sections (fixed2 : ℚ → String) (summary : CodeSummary)
    (detailLevel : Int) (h : 3 ≤ detailLevel) :
    generateSummary fixed2 summary detailLevel
        = generateSummary fixed2 summary 2
          ++ labelSectionSpec "Design Patterns:" summary.designPatterns
          ++ labelSectionSpec "Key Algorithms:" summary.keyAlgorithms ∧
      (∀ header labels, labelSectionSpec header labels = "" ↔ labels = []) ∧
      (∀ header labels, labels ≠ [] →
        labelSectionSpec header labels = header ++ "\n" ++ bulletLinesSpec labels ++ "\n") :=
  ⟨generateSummary_high fixed2 summary detailLevel h, labelSectionSpec_eq_empty_iff,
    fun header labels hne => by simp [labelSectionSpec, hne]⟩

/-- Witness for C15: level 7 of the sample summary is level 2 followed by the two
sections. -/
theorem generateSummary_sections_witness :
    (3 : Int) ≤ 7 ∧
      generateSummary sampleFixed2 sampleSummary 7
        = generateSummary sampleFixed2 sampleSummary 2
          ++ "Design Patterns:\n  - Observer\n\n" ++ "Key Algorithms:\n  - Sorting\n\n" := by
  refine ⟨by decide, ?_⟩
  rw [(generateSummary_sections sampleFixed2 sampleSummary 7 (by decide)).1]
  have hd : labelSectionSpec "Design Patterns:" sampleSummary.designPatterns
      = "Design Patterns:\n  - Observer\n\n" := by decide
  have hk : labelSectionSpec "Key Algorithms:" sampleSummary.keyAlgorithms
      = "Key Algorithms:\n  - Sorting\n\n" := by decide
  rw [hd, hk]

/-! ## The keyword catalogue of `identifyAlgorithms` -/

/-- C16: for every function the keyAlgorithms of `analyzeFunction` contain "Sorting" exactly
when the name contains "sort", "Searching" exactly when it contains "search" and
"Tree/Graph Traversal" exactly when it contains "traverse"; they contain no other label, and
they are empty when the name contains none of the three keywords. -/
theorem analyzeFunction_keyAlgorithms (f : FunctionInfo) :
    ("Sorting" ∈ (analyzeFunction f).keyAlgorithms ↔ "sort".data <:+: f.name.data) ∧
      ("Searching" ∈ (analyzeFunction f).keyAlgorithms ↔ "search".data <:+: f.name.data) ∧
      ("Tree/Graph Traversal" ∈ (analyzeFunction f).keyAlgorithms
        ↔ "traverse".data <:+: f.name.data) ∧
      (∀ label ∈ (analyzeFunction f).keyAlgorithms,
        label = "Sorting" ∨ label = "Searching" ∨ label = "Tree/Graph Traversal") ∧
      (¬ "sort".data <:+: f.name.data → ¬ "search".data <:+: f.name.data →
        ¬ "traverse".data <:+: f.name.data → (analyzeFunction f).keyAlgorithms = []) := by
  have e1 : ("Sorting" : String) ≠ "Searching" := by decide
  have e2 : ("Sorting" : String) ≠ "Tree/Graph Traversal" := by decide
  have e3 : ("Searching" : String) ≠ "Tree/Graph Traversal" := by decide
  rw [← find_isSome_iff, ← find_isSome_iff, ← find_isSome_iff]
  simp only [analyzeFunction, identifyAlgorithms]
  cases (find f.name "sort").isSome <;> cases (find f.name "search").isSome <;>
    cases (find f.name "traverse").isSome <;>
    simp [e1, e2, e3, e1.symm, e2.symm, e3.symm]

/-- Witness for C16: the function named "add" gets no algorithm label. -/
theorem analyzeFunction_keyAlgorithms_witness :
    addFunction.name = "add" ∧ (analyzeFunction addFunction).keyAlgorithms = [] :=
  ⟨rfl, (analyzeFunction_keyAlgorithms addFunction).2.2.2.2
    (by decide) (by decide) (by decide)⟩

/-! ## Cohesion of a type with methods and fields -/

theorem toInt32_eq_zero_iff (n : Nat) : toInt32 n = 0 ↔ n % 2 ^ 32 = 0 := by
  unfold toInt32
  split_ifs <;> omega

/-- When the product of the two counts is not a multiple of `2 ^ 32`, the cohesion of the type
is 0. -/
theorem calculateCohesion_of_no_wrap (c : ClassInfo)
    (h : (c.methods.length * c.fields.length) % 2 ^ 32 ≠ 0) : calculateCohesion c = 0 := by
  have hne : toInt32 ((c.methods.length * c.fields.length) % 2 ^ 64) ≠ 0 := by
    rw [Ne, toInt32_eq_zero_iff]
    omega
  unfold calculateCohesion
  simp only
  rw [if_neg hne]
  simp

/-- The cohesion of every type is 0 or 1, hence within [0, 1]. -/
theorem calculateCohesion_range (c : ClassInfo) :
    0 ≤ calculateCohesion c ∧ calculateCohesion c ≤ 1 := by
  unfold calculateCohesion
  simp only
  split_ifs <;> simp

/-- C17 (the code at the failing input): the type with 65536 methods and 65536 fields has at
least one method and one field, the product of the two counts is `2 ^ 32`, which the 32-bit
`possibleInteractions` holds as 0, and `calculateCohesion` returns 1 instead of 0. -/
theorem calculateCohesion_wideType :
    0 < wideType.methods.length ∧ 0 < wideType.fields.length ∧
      toInt32 ((wideType.methods.length * wideType.fields.length) % 2 ^ 64) = 0 ∧
      calculateCohesion wideType = 1 := by
  have hm : wideType.methods.length = 65536 := List.length_replicate _ _
  have hf : wideType.fields.length = 65536 := List.length_replicate _ _
  have hz : toInt32 ((wideType.methods.length * wideType.fields.length) % 2 ^ 64) = 0 := by
    rw [hm, hf]
    decide
  refine ⟨by omega, by omega, hz, ?_⟩
  unfold calculateCohesion
  simp only
  rw [if_pos hz]

/-! ## The Singleton signature and the example input -/

/-- C19 (as stated, refuted): the class `Logger` of the example input declares the static
method "getInstance" together with a private constructor and "log"; having three methods, it
gets no label from `identifyDesignPatterns`, and "Singleton" is not reported. -/
theorem identifyDesignPatterns_exampleLogger :
    (∃ m ∈ exampleLogger.methods, m.isStatic = true ∧ m.name = "getInstance") ∧
      exampleLogger.methods.length = 3 ∧
      identifyDesignPatterns exampleLogger = [] ∧
      "Singleton" ∉ identifyDesignPatterns exampleLogger := by
  refine ⟨⟨getInstanceMethod, by decide, rfl, rfl⟩, rfl, by decide, by decide⟩

/-- C19 (amended): `identifyDesignPatterns` reports "Singleton" if and only if the type has
exactly one method and that method is static and named "getInstance"; a type whose static
"getInstance" is declared together with further methods is therefore not reported as
"Singleton". -/
theorem identifyDesignPatterns_singleton_iff (c : ClassInfo) :
    ("Singleton" ∈ identifyDesignPatterns c ↔
        ∃ m, c.methods = [m] ∧ m.isStatic = true ∧ m.name = "getInstance") ∧
      (c.methods.length ≠ 1 → "Singleton" ∉ identifyDesignPatterns c) := by
  have hiff : "Singleton" ∈ identifyDesignPatterns c ↔
      ∃ m, c.methods = [m] ∧ m.isStatic = true ∧ m.name = "getInstance" := by
    rw [singleton_mem_iff]
    constructor
    · intro h
      rw [Bool.and_eq_true, beq_iff_eq] at h
      obtain ⟨m, hm⟩ := List.length_eq_one.1 h.1
      have h2 := h.2
      rw [hm] at h2
      exact ⟨m, hm, by simpa using h2⟩
    · rintro ⟨m, hm, hstatic, hname⟩
      simp [hm, hstatic, hname]
  refine ⟨hiff, fun hlen hmem => ?_⟩
  obtain ⟨m, hm, _⟩ := hiff.1 hmem
  exact hlen (by rw [hm]; rfl)

/-- Witness for C19 (amended): `Logger` of the example input has three methods and is not
reported as "Singleton", while the type with the single static "getInstance" is. -/
theorem identifyDesignPatterns_singleton_iff_witness :
    exampleLogger.methods.length ≠ 1 ∧ "Singleton" ∉ identifyDesignPatterns exampleLogger ∧
      "Singleton" ∈ identifyDesignPatterns logger :=
  ⟨by decide, (identifyDesignPatterns_singleton_iff exampleLogger).2 (by decide),
    (identifyDesignPatterns_singleton_iff logger).1.2 ⟨getInstanceMethod, rfl, rfl, rfl⟩⟩

/-- C20: for every type the list of `identifyDesignPatterns` is a sublist of
["Singleton", "Factory", "Observer"] in that order without duplicates, and it never contains
both "Singleton" and "Observer". -/
theorem identifyDesignPatterns_shape (c : ClassInfo) :
    (identifyDesignPatterns c).Sublist ["Singleton", "Factory", "Observer"] ∧
      (identifyDesignPatterns c).Nodup ∧
      ¬ ("Singleton" ∈ identifyDesignPatterns c ∧ "Observer" ∈ identifyDesignPatterns c) := by
  have hsub : (identifyDesignPatterns c).Sublist ["Singleton", "Factory", "Observer"] := by
    unfold identifyDesignPatterns
    simp only
    split_ifs <;> simp
  have hnodup : (["Singleton", "Factory", "Observer"] : List String).Nodup := by decide
  refine ⟨hsub, hnodup.sublist hsub, ?_⟩
  rintro ⟨hs, ho⟩
  have hflags := (observer_mem_iff c).1 ho
  have hone : ∃ m, c.methods = [m] := by
    by_contra hnot
    have hlen : ¬ c.methods.length = 1 := fun hl => hnot (List.length_eq_one.1 hl)
    have hsing : (c.methods.length == 1 &&
        (match c.methods[0]? with
          | some method => method.isStatic && method.name == "getInstance"
          | none => false)) = false := by
      simp [hlen]
    have hnone : "Singleton" ∉ identifyDesignPatterns c := by
      unfold identifyDesignPatterns
      simp only [hsing, Bool.false_eq_true, if_false]
      split_ifs <;> simp
    exact hnone hs
  obtain ⟨m, hm⟩ := hone
  rw [observerFlags_eq, hm] at hflags
  simp only [List.any_cons, List.any_nil, Bool.or_false, Bool.and_eq_true, beq_iff_eq] at hflags
  have hbad : ("attach" : String) = "detach" := hflags.1.1.symm.trans hflags.1.2
  exact absurd hbad (by decide)

end cpp_diagram
